import Mathlib

/-!
Shallow embedding of the Apple Xserve USB front-panel driver
(src/xserve-frontpanel.c): slot-bounded asynchronous write submission
(frontpanel_write), the completion callback with its error latch
(frontpanel_write_bulk_callback), disconnect / suspend teardown
(frontpanel_disconnect, frontpanel_draw_down, frontpanel_suspend) and the
periodic CPU-load sampler (rackmeter_do_timer).

Machine integers are modelled as Nat / Int with explicit reduction modulo
2 ^ 64 (u64), 2 ^ 32 (unsigned int) and 2 ^ 8 (u8) where the C code
truncates.  div64_u64 applied to a zero divisor is a processor fault in
the kernel and is modelled as Option.none.  Asynchronous callbacks are
modelled as explicit state transitions; the environment of a submission
(allocator success, usb_submit_urb return code) is an explicit parameter.
-/

namespace Frontpanel

/-- Linux errno 2 (ENOENT): returned as a URB status when the request was
unlinked synchronously. -/
def ENOENT : Int := 2

/-- Linux errno 5: the generic I O failure code that frontpanel_write
normalizes latched errors to. -/
def EIO_code : Int := 5

/-- Linux errno 11 (EAGAIN): slot pool exhausted, try again. -/
def EAGAIN : Int := 11

/-- Linux errno 12 (ENOMEM): allocation failure. -/
def ENOMEM : Int := 12

/-- Linux errno 19 (ENODEV): device gone. -/
def ENODEV : Int := 19

/-- Linux errno 32 (EPIPE): endpoint stalled; preserved verbatim by the
error latch read in frontpanel_write. -/
def EPIPE : Int := 32

/-- Linux errno 104 (ECONNRESET): URB unlinked asynchronously. -/
def ECONNRESET : Int := 104

/-- Linux errno 108 (ESHUTDOWN): device or host controller disabled. -/
def ESHUTDOWN : Int := 108

/-- PANEL_DATA_SIZE from the source: the fixed payload size, one byte per
channel. -/
def PANEL_DATA_SIZE : Nat := 32

/-- WRITES_IN_FLIGHT from the source: capacity of the write slot pool
(initial count of limit_sem). -/
def WRITES_IN_FLIGHT : Nat := 8

/-- CPU_SAMPLING_RATE from the source: sampler period in milliseconds. -/
def CPU_SAMPLING_RATE : Nat := 250

/-- The timeout, in milliseconds, that frontpanel_draw_down passes to
usb_wait_anchor_empty_timeout. -/
def draw_down_timeout_ms : Nat := 1000

/-- struct rackmeter_cpu: previous cumulative wall and idle counters of
one core (u64 values, modelled as Nat below 2 ^ 64 by use). -/
structure RackmeterCpu where
  prev_wall : Nat
  prev_idle : Nat
deriving DecidableEq

/-- struct usb_frontpanel: the device state the embedded operations read
and write.  limit_sem is the current counter of the slot semaphore
(free slots); submitted is the number of URBs currently anchored on
dev.submitted (in flight); errors is the error latch; buffer and cpu are
the sampler payload and per-core state.  samplerRunning records whether
the delayed work is scheduled (true from probe until
rackmeter_stop_cpu_sniffer). -/
structure UsbFrontpanel where
  limit_sem : Nat
  submitted : Nat
  errors : Int
  disconnected : Bool
  samplerRunning : Bool
  buffer : Fin 32 → Nat
  cpu : Fin 16 → RackmeterCpu

/-- Environment of one frontpanel_write call: whether usb_alloc_urb and
usb_alloc_coherent succeed, and the return code of usb_submit_urb
(0 on success, a negative errno otherwise). -/
structure WriteEnv where
  urb_ok : Bool
  buf_ok : Bool
  submit_rc : Int
deriving DecidableEq

/-- Result of one frontpanel_write call: the device state afterwards, the
ssize_t return value, and the transfer buffer handed to usb_submit_urb
(none when no submission happened). -/
structure WriteOutcome where
  dev : UsbFrontpanel
  retval : Int
  sent : Option (List Nat)

/-- up(&dev->limit_sem): return one slot to the pool. -/
def up_sem (d : UsbFrontpanel) : UsbFrontpanel :=
  { d with limit_sem := d.limit_sem + 1 }

/-- frontpanel_write from the source.  Steps in source order: compute
writesize = min(count, PANEL_DATA_SIZE); down_trylock on limit_sem
(failure returns -EAGAIN without touching anything else); read-and-clear
the error latch (a negative latched value is returned, -EPIPE verbatim
and anything else as -EIO, after releasing the slot); allocate the URB
and the coherent buffer (failure returns -ENOMEM); memcpy writesize bytes;
check dev->disconnected under io_mutex (set returns -ENODEV); submit
(a nonzero usb_submit_urb return is propagated after releasing the slot);
on success return writesize with the URB left in flight. -/
def frontpanel_write (dev : UsbFrontpanel) (env : WriteEnv) (buffer : List Nat)
    (count : Nat) : WriteOutcome :=
  let writesize := min count PANEL_DATA_SIZE
  if dev.limit_sem = 0 then
    ⟨dev, -EAGAIN, none⟩
  else
    let dev1 : UsbFrontpanel := { dev with limit_sem := dev.limit_sem - 1 }
    if dev1.errors < 0 then
      ⟨up_sem { dev1 with errors := 0 },
       if dev1.errors = -EPIPE then dev1.errors else -EIO_code, none⟩
    else if env.urb_ok = false then
      ⟨up_sem dev1, -ENOMEM, none⟩
    else if env.buf_ok = false then
      ⟨up_sem dev1, -ENOMEM, none⟩
    else if dev1.disconnected = true then
      ⟨up_sem dev1, -ENODEV, none⟩
    else if env.submit_rc = 0 then
      ⟨{ dev1 with submitted := dev1.submitted + 1 },
       ((writesize : Nat) : Int), some (buffer.take writesize)⟩
    else
      ⟨up_sem dev1, env.submit_rc, none⟩

/-- The condition under which frontpanel_write_bulk_callback suppresses
its dev_err log line: the three benign unlink / shutdown statuses. -/
def benign_status (s : Int) : Bool :=
  s == -ENOENT || s == -ECONNRESET || s == -ESHUTDOWN

/-- Whether frontpanel_write_bulk_callback calls dev_err for a completed
status: only for a nonzero status that is not benign. -/
def callback_logs_error (s : Int) : Bool :=
  !(s == 0) && !(benign_status s)

/-- frontpanel_write_bulk_callback from the source: for any nonzero
status (benign or not) it stores the status into the error latch under
err_lock; it then frees the transfer buffer and releases the slot with
up(&dev->limit_sem).  Completion also removes the URB from the anchor
(done by the USB core), modelled as the decrement of submitted. -/
def frontpanel_write_bulk_callback (dev : UsbFrontpanel) (status : Int) :
    UsbFrontpanel :=
  let dev1 := if status = 0 then dev else { dev with errors := status }
  { dev1 with limit_sem := dev1.limit_sem + 1, submitted := dev1.submitted - 1 }

/-- Iterate a function n times (used to run the completion callback once
per in-flight URB). -/
def applyN (f : UsbFrontpanel → UsbFrontpanel) : Nat → UsbFrontpanel → UsbFrontpanel
  | 0, d => d
  | n + 1, d => applyN f n (f d)

/-- usb_kill_anchored_urbs(&dev->submitted): every anchored URB is
cancelled and completes through frontpanel_write_bulk_callback with
status -ENOENT. -/
def usb_kill_anchored_urbs (d : UsbFrontpanel) : UsbFrontpanel :=
  applyN (fun x => frontpanel_write_bulk_callback x (-ENOENT)) d.submitted d

/-- frontpanel_disconnect from the source: stop the sampler
(rackmeter_stop_cpu_sniffer), set dev->disconnected under io_mutex, then
kill all anchored URBs.  The final kref_put only drops a reference and is
not part of the observable device state here. -/
def frontpanel_disconnect (d : UsbFrontpanel) : UsbFrontpanel :=
  usb_kill_anchored_urbs
    { d with samplerRunning := false, disconnected := true }

/-- frontpanel_draw_down from the source: usb_wait_anchor_empty_timeout
lets in-flight URBs complete naturally (status 0) for up to
draw_down_timeout_ms; naturalDone is how many complete within the window.
If any remain when the deadline elapses they are force-cancelled with
usb_kill_anchored_urbs (and when none remain the kill call is never
made, modelled by the kill of an empty anchor being the identity). -/
def frontpanel_draw_down (d : UsbFrontpanel) (naturalDone : Nat) : UsbFrontpanel :=
  usb_kill_anchored_urbs
    (applyN (fun x => frontpanel_write_bulk_callback x 0)
      (min naturalDone d.submitted) d)

/-- frontpanel_suspend from the source: just frontpanel_draw_down; it
touches neither dev->disconnected nor the sampler. -/
def frontpanel_suspend (d : UsbFrontpanel) (naturalDone : Nat) : UsbFrontpanel :=
  frontpanel_draw_down d naturalDone

/-- frontpanel_probe from the source: kzalloc zeroes the device state,
sema_init(&dev->limit_sem, WRITES_IN_FLIGHT) fills the slot pool, and
rackmeter_init_cpu_sniffer zeroes the per-core counters and schedules the
sampler. -/
def frontpanel_probe : UsbFrontpanel :=
  { limit_sem := WRITES_IN_FLIGHT
    submitted := 0
    errors := 0
    disconnected := false
    samplerRunning := true
    buffer := fun _ => 0
    cpu := fun _ => { prev_wall := 0, prev_idle := 0 } }

/-- A submission environment in which both allocations succeed and
usb_submit_urb returns 0. -/
def envOk0 : WriteEnv := { urb_ok := true, buf_ok := true, submit_rc := 0 }

/-- Reduce an integer to the u64 value with the same least 64 bits, as a
natural number (the effect of converting to a u64 in C). -/
def u64wrap (x : Int) : Nat := (x % (2 ^ 64 : Int)).toNat

/-- Reinterpret a u64 bit pattern as an s64 (two's complement), the
effect of assigning a u64 expression to an s64 variable. -/
def s64ofU64 (n : Nat) : Int :=
  if n % 2 ^ 64 < 2 ^ 63 then ((n % 2 ^ 64 : Nat) : Int)
  else ((n % 2 ^ 64 : Nat) : Int) - 2 ^ 64

/-- Reduce an integer to the s64 value with the same least 64 bits. -/
def s64wrap (x : Int) : Int := s64ofU64 (u64wrap x)

/-- One get_cpu_idle_time reading for one core: the cumulative idle time
and (through the second argument) the cumulative wall time, both u64. -/
structure CoreSample where
  idle : Nat
  wall : Nat
deriving DecidableEq

/-- The load computation of rackmeter_do_timer for one core:
diff_idle = cpu_idle - prev_idle and diff_wall = cpu_wall - prev_wall as
s64 values obtained from u64 subtraction; diff_wall is clamped up to
diff_idle when diff_idle > diff_wall; then
load = div64_u64(255 * (diff_wall - diff_idle), diff_wall) truncated to
unsigned int.  The source has no zero-divisor guard: div64_u64 with a
zero divisor is a processor fault, modelled as none. -/
def core_load (rcpu : RackmeterCpu) (s : CoreSample) : Option Nat :=
  let diff_idle : Int := s64ofU64 (u64wrap ((s.idle : Int) - (rcpu.prev_idle : Int)))
  let diff_wall0 : Int := s64ofU64 (u64wrap ((s.wall : Int) - (rcpu.prev_wall : Int)))
  let diff_wall : Int := if diff_wall0 < diff_idle then diff_idle else diff_wall0
  let divisor : Nat := u64wrap diff_wall
  if divisor = 0 then none
  else some ((u64wrap (s64wrap (255 * (diff_wall - diff_idle))) / divisor) % 2 ^ 32)

/-- The body of the for_each_online_cpu loop of rackmeter_do_timer for
one online core: indices above 15 are skipped; otherwise the core load is
computed (none on the divisor-zero fault), the channel byte
dev->buffer[cpu] is compared with (u8)load and overwritten when it
differs (the Bool result reports whether it differed, the loop's
updated |= step), and prev_idle / prev_wall are stored unconditionally. -/
def process_cpu (dev : UsbFrontpanel) (cpuIdx : Nat) (s : CoreSample) :
    Option (UsbFrontpanel × Bool) :=
  if h : cpuIdx < 16 then
    match core_load (dev.cpu ⟨cpuIdx, h⟩) s with
    | none => none
    | some load =>
      if dev.buffer ⟨cpuIdx, by omega⟩ = load % 2 ^ 8 then
        some ({ dev with
                  cpu := Function.update dev.cpu ⟨cpuIdx, h⟩
                    { prev_wall := s.wall, prev_idle := s.idle } }, false)
      else
        some ({ dev with
                  buffer := Function.update dev.buffer ⟨cpuIdx, by omega⟩ (load % 2 ^ 8)
                  cpu := Function.update dev.cpu ⟨cpuIdx, h⟩
                    { prev_wall := s.wall, prev_idle := s.idle } }, true)
  else some (dev, false)

/-- The whole for_each_online_cpu loop of rackmeter_do_timer: cores is
the list of online core indices paired with their get_cpu_idle_time
readings, upd the updated flag accumulated so far. -/
def rackmeter_scan (dev : UsbFrontpanel) (upd : Bool) :
    List (Nat × CoreSample) → Option (UsbFrontpanel × Bool)
  | [] => some (dev, upd)
  | (c, s) :: rest =>
    match process_cpu dev c s with
    | none => none
    | some (dev1, ch) => rackmeter_scan dev1 (upd || ch) rest

/-- The payload rackmeter_do_timer hands to frontpanel_write: the
PANEL_DATA_SIZE bytes of dev->buffer. -/
def buffer_bytes (dev : UsbFrontpanel) : List Nat :=
  (List.finRange 32).map dev.buffer

/-- Result of one sampler cycle: the device state afterwards, how many
frontpanel_write calls the cycle made, the buffer a submission handed to
the transport, and the write's return value when one was made. -/
structure TimerOutcome where
  dev : UsbFrontpanel
  write_count : Nat
  sent : Option (List Nat)
  write_retval : Option Int

/-- rackmeter_do_timer from the source: run the per-core loop; when the
updated flag ends true, call frontpanel_write(dev, dev->buffer,
PANEL_DATA_SIZE) exactly once (a non-positive return is only logged);
then reschedule.  The cycle is none when a core hit the divisor-zero
fault. -/
def rackmeter_do_timer (dev : UsbFrontpanel) (cores : List (Nat × CoreSample))
    (env : WriteEnv) : Option TimerOutcome :=
  match rackmeter_scan dev false cores with
  | none => none
  | some (dev1, updated) =>
    if updated then
      let o := frontpanel_write dev1 env (buffer_bytes dev1) PANEL_DATA_SIZE
      some ⟨o.dev, 1, o.sent, some o.retval⟩
    else some ⟨dev1, 0, none, none⟩

/-- Environments whose allocations succeed and whose usb_submit_urb call
returns 0. -/
def env_ok (e : WriteEnv) : Prop :=
  e.urb_ok = true ∧ e.buf_ok = true ∧ e.submit_rc = 0

/-- A device with one write in flight (one slot consumed) and an
otherwise fresh state. -/
def devOneInFlight : UsbFrontpanel :=
  { frontpanel_probe with limit_sem := 7, submitted := 1 }

/-- A device with two writes in flight and an otherwise fresh state. -/
def devTwoInFlight : UsbFrontpanel :=
  { frontpanel_probe with limit_sem := 6, submitted := 2 }

/-- Online-core readings used by concrete sampler runs: core 0 advanced
its wall counter by 4 and stayed fully non-idle. -/
def coresW : List (Nat × CoreSample) := [(0, { idle := 0, wall := 4 })]

/-- The result of the per-core loop on frontpanel_probe with coresW. -/
def scanW : UsbFrontpanel × Bool :=
  (rackmeter_scan frontpanel_probe false coresW).getD (frontpanel_probe, false)

/-- A concrete chain of writes from a fresh device with no intervening
completion: c5chain n is the outcome of the (n + 1)-th submission. -/
def c5chain : Nat → WriteOutcome
  | 0 => frontpanel_write frontpanel_probe envOk0 [0] 32
  | n + 1 => frontpanel_write (c5chain n).dev envOk0 [n + 1] 32

lemma write_latched (d : UsbFrontpanel) (e : WriteEnv) (b : List Nat) (c : Nat)
    (hs : d.limit_sem ≠ 0) (he : d.errors < 0) :
    frontpanel_write d e b c =
      ⟨up_sem { d with limit_sem := d.limit_sem - 1, errors := 0 },
       if d.errors = -EPIPE then d.errors else -EIO_code, none⟩ := by
  simp only [frontpanel_write]
  rw [if_neg hs, if_pos he]

lemma write_success (d : UsbFrontpanel) (e : WriteEnv) (b : List Nat) (c : Nat)
    (hs : d.limit_sem ≠ 0) (he : d.errors = 0) (hd : d.disconnected = false)
    (henv : env_ok e) :
    frontpanel_write d e b c =
      ⟨{ d with limit_sem := d.limit_sem - 1, submitted := d.submitted + 1 },
       ((min c PANEL_DATA_SIZE : Nat) : Int), some (b.take (min c PANEL_DATA_SIZE))⟩ := by
  obtain ⟨h1, h2, h3⟩ := henv
  simp only [frontpanel_write]
  rw [if_neg hs]
  simp [he, hd, h1, h2, h3]

lemma write_disconnected (d : UsbFrontpanel) (e : WriteEnv) (b : List Nat) (c : Nat)
    (hd : d.disconnected = true) :
    (frontpanel_write d e b c).retval < 0 ∧ (frontpanel_write d e b c).sent = none := by
  simp only [frontpanel_write]
  split_ifs with h1 h2 h3 h4 h5 <;>
    simp_all [EAGAIN, EPIPE, EIO_code, ENOMEM, ENODEV, up_sem]

lemma callback_spec (d : UsbFrontpanel) (s : Int) :
    (frontpanel_write_bulk_callback d s).limit_sem = d.limit_sem + 1 ∧
    (frontpanel_write_bulk_callback d s).submitted = d.submitted - 1 ∧
    (frontpanel_write_bulk_callback d s).disconnected = d.disconnected ∧
    (frontpanel_write_bulk_callback d s).samplerRunning = d.samplerRunning ∧
    (frontpanel_write_bulk_callback d s).buffer = d.buffer ∧
    (frontpanel_write_bulk_callback d s).cpu = d.cpu ∧
    (frontpanel_write_bulk_callback d s).errors = (if s = 0 then d.errors else s) := by
  unfold frontpanel_write_bulk_callback
  split <;> simp

lemma applyN_cb_spec (s : Int) (k : Nat) (d : UsbFrontpanel) :
    (applyN (fun x => frontpanel_write_bulk_callback x s) k d).limit_sem = d.limit_sem + k ∧
    (applyN (fun x => frontpanel_write_bulk_callback x s) k d).submitted = d.submitted - k ∧
    (applyN (fun x => frontpanel_write_bulk_callback x s) k d).disconnected = d.disconnected ∧
    (applyN (fun x => frontpanel_write_bulk_callback x s) k d).samplerRunning = d.samplerRunning ∧
    (applyN (fun x => frontpanel_write_bulk_callback x s) k d).buffer = d.buffer ∧
    (applyN (fun x => frontpanel_write_bulk_callback x s) k d).cpu = d.cpu ∧
    (applyN (fun x => frontpanel_write_bulk_callback x s) k d).errors
      = (if k = 0 ∨ s = 0 then d.errors else s) := by
  induction k generalizing d with
  | zero => simp [applyN]
  | succ n ih =>
    obtain ⟨g1, g2, g3, g4, g5, g6, g7⟩ := callback_spec d s
    obtain ⟨i1, i2, i3, i4, i5, i6, i7⟩ := ih (frontpanel_write_bulk_callback d s)
    refine ⟨?_, ?_, ?_, ?_, ?_, ?_, ?_⟩
    · show (applyN _ n _).limit_sem = _
      rw [i1, g1]; omega
    · show (applyN _ n _).submitted = _
      rw [i2, g2]; omega
    · show (applyN _ n _).disconnected = _
      rw [i3, g3]
    · show (applyN _ n _).samplerRunning = _
      rw [i4, g4]
    · show (applyN _ n _).buffer = _
      rw [i5, g5]
    · show (applyN _ n _).cpu = _
      rw [i6, g6]
    · show (applyN _ n _).errors = _
      rw [i7, g7]
      by_cases hz : s = 0 <;> by_cases hn : n = 0 <;> simp [hz, hn]

lemma kill_spec (d : UsbFrontpanel) :
    (usb_kill_anchored_urbs d).limit_sem = d.limit_sem + d.submitted ∧
    (usb_kill_anchored_urbs d).submitted = 0 ∧
    (usb_kill_anchored_urbs d).disconnected = d.disconnected ∧
    (usb_kill_anchored_urbs d).samplerRunning = d.samplerRunning ∧
    (usb_kill_anchored_urbs d).errors
      = (if d.submitted = 0 then d.errors else -ENOENT) := by
  obtain ⟨h1, h2, h3, h4, h5, h6, h7⟩ := applyN_cb_spec (-ENOENT) d.submitted d
  refine ⟨h1, ?_, h3, h4, ?_⟩
  · rw [show (usb_kill_anchored_urbs d).submitted
          = (applyN (fun x => frontpanel_write_bulk_callback x (-ENOENT)) d.submitted d).submitted
        from rfl, h2]
    omega
  · rw [show (usb_kill_anchored_urbs d).errors
          = (applyN (fun x => frontpanel_write_bulk_callback x (-ENOENT)) d.submitted d).errors
        from rfl, h7]
    simp [ENOENT]

/-- C1 counterexample: a completion with the benign status -ENOENT on a
device whose latch was clear does set the error latch (dev->errors
becomes -ENOENT, not 0), and the next write attempt observes it and
fails with -EIO.  This contradicts the claim that the latch remains
unset by a benign completion. -/
theorem c1_counterexample :
    (frontpanel_write_bulk_callback devOneInFlight (-ENOENT)).errors = -ENOENT ∧
    -ENOENT ≠ 0 ∧
    (frontpanel_write (frontpanel_write_bulk_callback devOneInFlight (-ENOENT))
        envOk0 [5] 32).retval = -EIO_code := by
  decide

/-- C1 amended: for every completion whose status is one of the benign
unlink / shutdown / reset-in-progress codes, the callback does not log
the status as an error (dev_err is suppressed), but it does latch it:
dev->errors is set to the status, so the next write attempt observes a
prior error and fails with -EIO (the benign codes are not -EPIPE), the
latch being cleared by that read. -/
theorem c1_benign_status_latched (d : UsbFrontpanel) (e : WriteEnv) (b : List Nat)
    (c : Nat) (s : Int) (hs : benign_status s = true) :
    callback_logs_error s = false ∧
    (frontpanel_write_bulk_callback d s).errors = s ∧
    (frontpanel_write (frontpanel_write_bulk_callback d s) e b c).retval = -EIO_code ∧
    (frontpanel_write (frontpanel_write_bulk_callback d s) e b c).dev.errors = 0 := by
  have hcases : s = -ENOENT ∨ s = -ECONNRESET ∨ s = -ESHUTDOWN := by
    simpa [benign_status, or_assoc] using hs
  have hne : s ≠ 0 := by
    rcases hcases with h | h | h <;> rw [h] <;> decide
  have hlt : s < 0 := by
    rcases hcases with h | h | h <;> rw [h] <;> decide
  have hnp : s ≠ -EPIPE := by
    rcases hcases with h | h | h <;> rw [h] <;> decide
  obtain ⟨g1, g2, g3, g4, g5, g6, g7⟩ := callback_spec d s
  have herr : (frontpanel_write_bulk_callback d s).errors = s := by
    rw [g7, if_neg hne]
  have hsem : (frontpanel_write_bulk_callback d s).limit_sem ≠ 0 := by
    rw [g1]; omega
  have hwr := write_latched (frontpanel_write_bulk_callback d s) e b c hsem
    (by rw [herr]; exact hlt)
  refine ⟨?_, herr, ?_, ?_⟩
  · simp [callback_logs_error, hne, hs]
  · rw [hwr]
    simp [herr, hnp]
  · rw [hwr]
    simp [up_sem]

/-- C1 witness: the amended behavior at the concrete status -ENOENT. -/
theorem c1_witness :
    callback_logs_error (-ENOENT) = false ∧
    (frontpanel_write_bulk_callback devOneInFlight (-ENOENT)).errors = -ENOENT ∧
    (frontpanel_write (frontpanel_write_bulk_callback devOneInFlight (-ENOENT))
        envOk0 [5] 32).retval = -EIO_code ∧
    (frontpanel_write (frontpanel_write_bulk_callback devOneInFlight (-ENOENT))
        envOk0 [5] 32).dev.errors = 0 :=
  c1_benign_status_latched devOneInFlight envOk0 [5] 32 (-ENOENT) (by decide)

/-- C3 counterexample: disconnect a device with one write in flight.
The kill of the in-flight URB latches its benign -ENOENT status, so the
next write (fresh slot, successful allocations) returns -EIO, not the
claimed -ENODEV: after on_detach a write does not deterministically
return DeviceGone. -/
theorem c3_counterexample :
    (frontpanel_disconnect devOneInFlight).disconnected = true ∧
    (frontpanel_write (frontpanel_disconnect devOneInFlight) envOk0 [5] 32).retval
      = -EIO_code ∧
    -EIO_code ≠ -ENODEV := by
  decide

/-- C3 amended: after frontpanel_disconnect every subsequent write fails
with a negative code and nothing is handed to the transport; the code is
-ENODEV whenever the error latch is clear, a slot is free and both
allocations succeed (in particular whenever no write was in flight at
disconnect time), but when disconnect cancelled an in-flight write the
latched benign status makes the first subsequent write return -EIO
instead, and a failed allocation returns -ENOMEM. -/
theorem c3_disconnect_write_fails (d : UsbFrontpanel) (e : WriteEnv) (b : List Nat)
    (c : Nat) :
    (frontpanel_write (frontpanel_disconnect d) e b c).retval < 0 ∧
    (frontpanel_write (frontpanel_disconnect d) e b c).sent = none ∧
    (d.submitted = 0 → d.errors = 0 → d.limit_sem ≠ 0 → e.urb_ok = true →
      e.buf_ok = true →
      (frontpanel_write (frontpanel_disconnect d) e b c).retval = -ENODEV) := by
  have hdisc : (frontpanel_disconnect d).disconnected = true := by
    unfold frontpanel_disconnect
    obtain ⟨-, -, h3, -, -⟩ :=
      kill_spec { d with samplerRunning := false, disconnected := true }
    rw [h3]
  obtain ⟨hneg, hnone⟩ := write_disconnected (frontpanel_disconnect d) e b c hdisc
  refine ⟨hneg, hnone, fun h0 he hs hu hb2 => ?_⟩
  have hid : frontpanel_disconnect d
      = { d with samplerRunning := false, disconnected := true } := by
    unfold frontpanel_disconnect usb_kill_anchored_urbs
    simp [h0, applyN]
  rw [hid]
  simp only [frontpanel_write]
  rw [if_neg (by simpa using hs)]
  simp [he, hu, hb2]

/-- C3 witness: on a device with nothing in flight, the write after
disconnect returns exactly -ENODEV (and in any case a negative code). -/
theorem c3_witness :
    (frontpanel_write (frontpanel_disconnect frontpanel_probe) envOk0 [5] 32).retval
      = -ENODEV ∧
    (frontpanel_write (frontpanel_disconnect frontpanel_probe) envOk0 [5] 32).retval
      < 0 := by
  have h := c3_disconnect_write_fails frontpanel_probe envOk0 [5] 32
  exact ⟨h.2.2 rfl rfl (by decide) rfl rfl, h.1⟩

/-- C4: after one completion with a non-benign negative status and a
clear latch, the first write attempt returns the latched error (-EPIPE
verbatim, anything else normalized to -EIO) and clears the latch; the
second write attempt observes no error and, with a free slot, a
connected device and successful allocation and submission, succeeds,
returning min(count, PANEL_DATA_SIZE). -/
theorem c4_error_latch_exactly_once (d : UsbFrontpanel) (s : Int) (e1 e2 : WriteEnv)
    (b1 b2 : List Nat) (c1 c2 : Nat)
    (herr : d.errors = 0) (hdisc : d.disconnected = false)
    (hs : s < 0) (hnb : benign_status s = false) (henv : env_ok e2) :
    (frontpanel_write (frontpanel_write_bulk_callback d s) e1 b1 c1).retval
      = (if s = -EPIPE then -EPIPE else -EIO_code) ∧
    (frontpanel_write (frontpanel_write_bulk_callback d s) e1 b1 c1).dev.errors = 0 ∧
    (frontpanel_write
        ((frontpanel_write (frontpanel_write_bulk_callback d s) e1 b1 c1).dev)
        e2 b2 c2).retval = ((min c2 PANEL_DATA_SIZE : Nat) : Int) ∧
    0 ≤ (frontpanel_write
        ((frontpanel_write (frontpanel_write_bulk_callback d s) e1 b1 c1).dev)
        e2 b2 c2).retval := by
  have hne : s ≠ 0 := by omega
  obtain ⟨g1, g2, g3, g4, g5, g6, g7⟩ := callback_spec d s
  have herr1 : (frontpanel_write_bulk_callback d s).errors = s := by
    rw [g7, if_neg hne]
  have hsem : (frontpanel_write_bulk_callback d s).limit_sem ≠ 0 := by
    rw [g1]; omega
  have hwr := write_latched (frontpanel_write_bulk_callback d s) e1 b1 c1 hsem
    (by rw [herr1]; exact hs)
  have hret1 : (frontpanel_write (frontpanel_write_bulk_callback d s) e1 b1 c1).retval
      = (if s = -EPIPE then -EPIPE else -EIO_code) := by
    rw [hwr]
    change (if (frontpanel_write_bulk_callback d s).errors = -EPIPE
            then (frontpanel_write_bulk_callback d s).errors else -EIO_code) = _
    rw [herr1]
    by_cases hp : s = -EPIPE <;> simp [hp]
  have hdev1 : (frontpanel_write (frontpanel_write_bulk_callback d s) e1 b1 c1).dev
      = up_sem { frontpanel_write_bulk_callback d s with
                   limit_sem := (frontpanel_write_bulk_callback d s).limit_sem - 1,
                   errors := 0 } := by
    rw [hwr]
  have hwr2 := write_success
    ((frontpanel_write (frontpanel_write_bulk_callback d s) e1 b1 c1).dev) e2 b2 c2
    (by rw [hdev1]; simp [up_sem])
    (by rw [hdev1]; simp [up_sem])
    (by rw [hdev1]; simp [up_sem, g3, hdisc])
    henv
  refine ⟨hret1, ?_, ?_, ?_⟩
  · rw [hdev1]; simp [up_sem]
  · rw [hwr2]
  · rw [hwr2]; positivity

/-- C4 witness: the exactly-once latch behavior at the concrete
non-benign status -71 (EPROTO) on a fresh device. -/
theorem c4_witness :
    (frontpanel_write (frontpanel_write_bulk_callback frontpanel_probe (-71))
        envOk0 [1] 32).retval = (if (-71 : Int) = -EPIPE then -EPIPE else -EIO_code) ∧
    (frontpanel_write (frontpanel_write_bulk_callback frontpanel_probe (-71))
        envOk0 [1] 32).dev.errors = 0 ∧
    (frontpanel_write
        ((frontpanel_write (frontpanel_write_bulk_callback frontpanel_probe (-71))
            envOk0 [1] 32).dev)
        envOk0 [2] 32).retval = ((min 32 PANEL_DATA_SIZE : Nat) : Int) ∧
    0 ≤ (frontpanel_write
        ((frontpanel_write (frontpanel_write_bulk_callback frontpanel_probe (-71))
            envOk0 [1] 32).dev)
        envOk0 [2] 32).retval :=
  c4_error_latch_exactly_once frontpanel_probe (-71) envOk0 envOk0 [1] [2] 32 32
    rfl rfl (by decide) (by decide) ⟨rfl, rfl, rfl⟩

lemma write_success_state (d : UsbFrontpanel) (e : WriteEnv) (b : List Nat) (c : Nat)
    (hs : d.limit_sem ≠ 0) (he : d.errors = 0) (hd : d.disconnected = false)
    (henv : env_ok e) :
    0 ≤ (frontpanel_write d e b c).retval ∧
    (frontpanel_write d e b c).dev.limit_sem = d.limit_sem - 1 ∧
    (frontpanel_write d e b c).dev.errors = 0 ∧
    (frontpanel_write d e b c).dev.disconnected = false ∧
    (frontpanel_write d e b c).dev.submitted = d.submitted + 1 := by
  rw [write_success d e b c hs he hd henv]
  exact ⟨Int.natCast_nonneg _, rfl, he, hd, rfl⟩

/-- C5: starting from a freshly probed device (slot capacity
WRITES_IN_FLIGHT = 8), eight successive writes with successful
environments and no intervening completion all succeed (each acquiring a
slot), leaving the slot pool empty; the ninth write fails fast with
-EAGAIN and leaves the entire device state unchanged. -/
theorem c5_slot_exhaustion
    (e1 e2 e3 e4 e5 e6 e7 e8 e9 : WriteEnv)
    (p1 p2 p3 p4 p5 p6 p7 p8 p9 : List Nat)
    (n1 n2 n3 n4 n5 n6 n7 n8 n9 : Nat)
    (o1 o2 o3 o4 o5 o6 o7 o8 o9 : WriteOutcome)
    (h1 : env_ok e1) (h2 : env_ok e2) (h3 : env_ok e3) (h4 : env_ok e4)
    (h5 : env_ok e5) (h6 : env_ok e6) (h7 : env_ok e7) (h8 : env_ok e8)
    (q1 : o1 = frontpanel_write frontpanel_probe e1 p1 n1)
    (q2 : o2 = frontpanel_write o1.dev e2 p2 n2)
    (q3 : o3 = frontpanel_write o2.dev e3 p3 n3)
    (q4 : o4 = frontpanel_write o3.dev e4 p4 n4)
    (q5 : o5 = frontpanel_write o4.dev e5 p5 n5)
    (q6 : o6 = frontpanel_write o5.dev e6 p6 n6)
    (q7 : o7 = frontpanel_write o6.dev e7 p7 n7)
    (q8 : o8 = frontpanel_write o7.dev e8 p8 n8)
    (q9 : o9 = frontpanel_write o8.dev e9 p9 n9) :
    (0 ≤ o1.retval ∧ 0 ≤ o2.retval ∧ 0 ≤ o3.retval ∧ 0 ≤ o4.retval ∧
     0 ≤ o5.retval ∧ 0 ≤ o6.retval ∧ 0 ≤ o7.retval ∧ 0 ≤ o8.retval) ∧
    o8.dev.limit_sem = 0 ∧ o9.retval = -EAGAIN ∧ o9.dev = o8.dev := by
  have t1 := write_success_state frontpanel_probe e1 p1 n1 (by decide) rfl rfl h1
  rw [← q1] at t1
  obtain ⟨r1, l1, er1, di1, su1⟩ := t1
  have t2 := write_success_state o1.dev e2 p2 n2 (by rw [l1]; decide) er1 di1 h2
  rw [← q2] at t2
  obtain ⟨r2, l2, er2, di2, su2⟩ := t2
  have t3 := write_success_state o2.dev e3 p3 n3 (by rw [l2, l1]; decide) er2 di2 h3
  rw [← q3] at t3
  obtain ⟨r3, l3, er3, di3, su3⟩ := t3
  have t4 := write_success_state o3.dev e4 p4 n4 (by rw [l3, l2, l1]; decide) er3 di3 h4
  rw [← q4] at t4
  obtain ⟨r4, l4, er4, di4, su4⟩ := t4
  have t5 := write_success_state o4.dev e5 p5 n5 (by rw [l4, l3, l2, l1]; decide)
    er4 di4 h5
  rw [← q5] at t5
  obtain ⟨r5, l5, er5, di5, su5⟩ := t5
  have t6 := write_success_state o5.dev e6 p6 n6 (by rw [l5, l4, l3, l2, l1]; decide)
    er5 di5 h6
  rw [← q6] at t6
  obtain ⟨r6, l6, er6, di6, su6⟩ := t6
  have t7 := write_success_state o6.dev e7 p7 n7
    (by rw [l6, l5, l4, l3, l2, l1]; decide) er6 di6 h7
  rw [← q7] at t7
  obtain ⟨r7, l7, er7, di7, su7⟩ := t7
  have t8 := write_success_state o7.dev e8 p8 n8
    (by rw [l7, l6, l5, l4, l3, l2, l1]; decide) er7 di7 h8
  rw [← q8] at t8
  obtain ⟨r8, l8, er8, di8, su8⟩ := t8
  have hz : o8.dev.limit_sem = 0 := by
    rw [l8, l7, l6, l5, l4, l3, l2, l1]; decide
  have h9 : frontpanel_write o8.dev e9 p9 n9 = ⟨o8.dev, -EAGAIN, none⟩ := by
    simp only [frontpanel_write]
    rw [if_pos hz]
  refine ⟨⟨r1, r2, r3, r4, r5, r6, r7, r8⟩, hz, ?_, ?_⟩
  · rw [q9, h9]
  · rw [q9, h9]

/-- C5 witness: the chain c5chain instantiates the nine submissions; the
eighth leaves no free slot, and the ninth returns -EAGAIN with the device
unchanged. -/
theorem c5_witness :
    (0 ≤ (c5chain 0).retval ∧ 0 ≤ (c5chain 1).retval ∧ 0 ≤ (c5chain 2).retval ∧
     0 ≤ (c5chain 3).retval ∧ 0 ≤ (c5chain 4).retval ∧ 0 ≤ (c5chain 5).retval ∧
     0 ≤ (c5chain 6).retval ∧ 0 ≤ (c5chain 7).retval) ∧
    (c5chain 7).dev.limit_sem = 0 ∧ (c5chain 8).retval = -EAGAIN ∧
    (c5chain 8).dev = (c5chain 7).dev :=
  c5_slot_exhaustion envOk0 envOk0 envOk0 envOk0 envOk0 envOk0 envOk0 envOk0 envOk0
    [0] [1] [2] [3] [4] [5] [6] [7] [8] 32 32 32 32 32 32 32 32 32
    (c5chain 0) (c5chain 1) (c5chain 2) (c5chain 3) (c5chain 4) (c5chain 5)
    (c5chain 6) (c5chain 7) (c5chain 8)
    ⟨rfl, rfl, rfl⟩ ⟨rfl, rfl, rfl⟩ ⟨rfl, rfl, rfl⟩ ⟨rfl, rfl, rfl⟩
    ⟨rfl, rfl, rfl⟩ ⟨rfl, rfl, rfl⟩ ⟨rfl, rfl, rfl⟩ ⟨rfl, rfl, rfl⟩
    rfl rfl rfl rfl rfl rfl rfl rfl rfl

/-- C8: slot conservation.  For every write submission whose transport
return code is a valid usb_submit_urb result (0 or negative): the sum of
free slots and in-flight operations is preserved; every synchronous
failure leaves both counts exactly as they were (the acquired slot was
released exactly once before returning); every success consumes exactly
one slot and adds exactly one in-flight operation, whose completion
callback releases exactly one slot and retires exactly one operation;
hence a device whose slot/in-flight sum equals WRITES_IN_FLIGHT has all
WRITES_IN_FLIGHT slots free once nothing is in flight. -/
theorem c8_slot_conservation :
    (∀ (d : UsbFrontpanel) (e : WriteEnv) (b : List Nat) (c : Nat), e.submit_rc ≤ 0 →
      (frontpanel_write d e b c).dev.limit_sem + (frontpanel_write d e b c).dev.submitted
          = d.limit_sem + d.submitted ∧
      ((frontpanel_write d e b c).retval < 0 →
        (frontpanel_write d e b c).dev.limit_sem = d.limit_sem ∧
        (frontpanel_write d e b c).dev.submitted = d.submitted) ∧
      (0 ≤ (frontpanel_write d e b c).retval →
        d.limit_sem ≠ 0 ∧
        (frontpanel_write d e b c).dev.limit_sem = d.limit_sem - 1 ∧
        (frontpanel_write d e b c).dev.submitted = d.submitted + 1)) ∧
    (∀ (d : UsbFrontpanel) (s : Int),
      (frontpanel_write_bulk_callback d s).limit_sem = d.limit_sem + 1 ∧
      (frontpanel_write_bulk_callback d s).submitted = d.submitted - 1) ∧
    (∀ d : UsbFrontpanel,
      d.limit_sem + d.submitted = WRITES_IN_FLIGHT → d.submitted = 0 →
      d.limit_sem = WRITES_IN_FLIGHT) := by
  refine ⟨fun d e b c hrc => ?_, fun d s => ?_, fun d hsum hz => by omega⟩
  · simp only [frontpanel_write]
    split_ifs with h1 h2 h3 h4 h5 h6 h7 <;>
      simp_all [up_sem, EAGAIN, EPIPE, EIO_code, ENOMEM, ENODEV] <;>
      omega
  · obtain ⟨g1, g2, -⟩ := callback_spec d s
    exact ⟨g1, g2⟩

/-- C8 witness: conservation at a concrete successful submission and a
concrete completion. -/
theorem c8_witness :
    (frontpanel_write frontpanel_probe envOk0 [3] 32).dev.limit_sem
        + (frontpanel_write frontpanel_probe envOk0 [3] 32).dev.submitted
      = frontpanel_probe.limit_sem + frontpanel_probe.submitted ∧
    (frontpanel_write_bulk_callback devOneInFlight 0).limit_sem
      = devOneInFlight.limit_sem + 1 ∧
    (frontpanel_write_bulk_callback devOneInFlight 0).submitted
      = devOneInFlight.submitted - 1 := by
  have h := c8_slot_conservation
  exact ⟨(h.1 frontpanel_probe envOk0 [3] 32 (by decide)).1,
         (h.2.1 devOneInFlight 0).1, (h.2.1 devOneInFlight 0).2⟩

/-- C9: suspend only drains: it waits (bounded by the 1000 ms constant
passed to usb_wait_anchor_empty_timeout) for in-flight operations to
complete naturally and force-cancels only the remainder, after which
nothing is in flight; it neither sets the disconnected flag nor stops
the sampler, and when every in-flight operation completed naturally
within the window the state is exactly the naturally-completed one (no
forced cancellation happened, in particular the error latch is
untouched). -/
theorem c9_suspend_frame (d : UsbFrontpanel) (n : Nat) :
    (frontpanel_suspend d n).disconnected = d.disconnected ∧
    (frontpanel_suspend d n).samplerRunning = d.samplerRunning ∧
    (frontpanel_suspend d n).submitted = 0 ∧
    (d.submitted ≤ n →
      frontpanel_suspend d n
        = applyN (fun x => frontpanel_write_bulk_callback x 0) d.submitted d ∧
      (frontpanel_suspend d n).errors = d.errors) ∧
    draw_down_timeout_ms = 1000 := by
  obtain ⟨m1, m2, m3, m4, m5, m6, m7⟩ :=
    applyN_cb_spec 0 (min n d.submitted) d
  obtain ⟨k1, k2, k3, k4, k5⟩ :=
    kill_spec (applyN (fun x => frontpanel_write_bulk_callback x 0) (min n d.submitted) d)
  have hsusp : frontpanel_suspend d n
      = usb_kill_anchored_urbs
          (applyN (fun x => frontpanel_write_bulk_callback x 0) (min n d.submitted) d) :=
    rfl
  refine ⟨?_, ?_, ?_, fun hle => ?_, rfl⟩
  · rw [hsusp, k3, m3]
  · rw [hsusp, k4, m4]
  · rw [hsusp, k2]
  · have hmin : min n d.submitted = d.submitted := min_eq_right hle
    have hms : (applyN (fun x => frontpanel_write_bulk_callback x 0)
        (min n d.submitted) d).submitted = 0 := by
      rw [m2, hmin]; omega
    have hkill : frontpanel_suspend d n
        = applyN (fun x => frontpanel_write_bulk_callback x 0) (min n d.submitted) d := by
      rw [hsusp]
      unfold usb_kill_anchored_urbs
      rw [hms]
      rfl
    refine ⟨by rw [hkill, hmin], ?_⟩
    rw [hkill, m7]
    simp

/-- C9 witness: suspend on a device with two in-flight operations that
complete naturally leaves disconnected and the sampler untouched, drains
everything and keeps the error latch clear. -/
theorem c9_witness :
    (frontpanel_suspend devTwoInFlight 2).disconnected = devTwoInFlight.disconnected ∧
    (frontpanel_suspend devTwoInFlight 2).samplerRunning
      = devTwoInFlight.samplerRunning ∧
    (frontpanel_suspend devTwoInFlight 2).submitted = 0 ∧
    (frontpanel_suspend devTwoInFlight 2).errors = devTwoInFlight.errors := by
  have h := c9_suspend_frame devTwoInFlight 2
  exact ⟨h.1, h.2.1, h.2.2.1, (h.2.2.2.1 (by decide)).2⟩

/-- C10: every write copies and hands to the transport at most
PANEL_DATA_SIZE = 32 bytes — exactly the first min(count, 32) bytes of
the payload — and a successful call returns exactly min(count, 32):
longer payloads are silently truncated, not rejected. -/
theorem c10_truncation (d : UsbFrontpanel) (e : WriteEnv) (b : List Nat) (c : Nat)
    (hrc : e.submit_rc ≤ 0) :
    (∀ l, (frontpanel_write d e b c).sent = some l →
      l.length ≤ PANEL_DATA_SIZE ∧ l = b.take (min c PANEL_DATA_SIZE)) ∧
    (0 ≤ (frontpanel_write d e b c).retval →
      (frontpanel_write d e b c).retval = ((min c PANEL_DATA_SIZE : Nat) : Int) ∧
      (frontpanel_write d e b c).sent = some (b.take (min c PANEL_DATA_SIZE))) := by
  simp only [frontpanel_write]
  split_ifs with h1 h2 h3 h4 h5 h6 h7 <;>
    simp_all [up_sem, EAGAIN, EPIPE, EIO_code, ENOMEM, ENODEV, List.length_take] <;>
    omega

/-- C10 witness: a 40-byte payload with count 40 is accepted with return
value 32 and exactly its first 32 bytes are handed to the transport. -/
theorem c10_witness :
    0 ≤ (frontpanel_write frontpanel_probe envOk0 (List.replicate 40 7) 40).retval ∧
    (frontpanel_write frontpanel_probe envOk0 (List.replicate 40 7) 40).retval
      = ((min 40 PANEL_DATA_SIZE : Nat) : Int) ∧
    (frontpanel_write frontpanel_probe envOk0 (List.replicate 40 7) 40).sent
      = some ((List.replicate 40 7).take (min 40 PANEL_DATA_SIZE)) := by
  have h := c10_truncation frontpanel_probe envOk0 (List.replicate 40 7) 40 (by decide)
  have h0 : 0 ≤ (frontpanel_write frontpanel_probe envOk0
      (List.replicate 40 7) 40).retval := by decide
  exact ⟨h0, (h.2 h0).1, (h.2 h0).2⟩

lemma u64wrap_lt (x : Int) : u64wrap x < 2 ^ 64 := by
  unfold u64wrap
  omega

lemma u64wrap_natCast (n : Nat) : u64wrap (n : Int) = n % 2 ^ 64 := by
  unfold u64wrap
  omega

lemma u64wrap_sub_of_le (a b : Nat) (hle : b ≤ a) (hb : a - b < 2 ^ 64) :
    u64wrap ((a : Int) - (b : Int)) = a - b := by
  unfold u64wrap
  omega

lemma s64ofU64_small (n : Nat) (h : n < 2 ^ 63) : s64ofU64 n = (n : Int) := by
  have h64 : n < 2 ^ 64 := lt_trans h (by norm_num)
  unfold s64ofU64
  rw [Nat.mod_eq_of_lt h64, if_pos h]

lemma u64wrap_s64wrap (x : Int) : u64wrap (s64wrap x) = u64wrap x := by
  have h1 : u64wrap x < 2 ^ 64 := u64wrap_lt x
  unfold s64wrap s64ofU64
  rw [Nat.mod_eq_of_lt h1]
  split_ifs with h
  · rw [u64wrap_natCast, Nat.mod_eq_of_lt h1]
  · unfold u64wrap at h1 ⊢
    omega

lemma core_load_eq (rcpu : RackmeterCpu) (s : CoreSample)
    (hi : rcpu.prev_idle ≤ s.idle) (hib : s.idle - rcpu.prev_idle < 2 ^ 63)
    (hw : rcpu.prev_wall ≤ s.wall) (hwb : s.wall - rcpu.prev_wall < 2 ^ 63) :
    core_load rcpu s =
      if max (s.idle - rcpu.prev_idle) (s.wall - rcpu.prev_wall) = 0 then none
      else some ((255 * (max (s.idle - rcpu.prev_idle) (s.wall - rcpu.prev_wall)
                    - (s.idle - rcpu.prev_idle)) % 2 ^ 64
                  / max (s.idle - rcpu.prev_idle) (s.wall - rcpu.prev_wall)) % 2 ^ 32) := by
  have h64 : (2 : Nat) ^ 63 < 2 ^ 64 := by norm_num
  set i := s.idle - rcpu.prev_idle with hidef
  set w := s.wall - rcpu.prev_wall with hwdef
  have hmax63 : max i w < 2 ^ 63 := max_lt hib hwb
  have hmax64 : max i w < 2 ^ 64 := lt_trans hmax63 h64
  have hclamp : (if (w : Int) < (i : Int) then (i : Int) else (w : Int))
      = ((max i w : Nat) : Int) := by
    split_ifs with h
    · have hwi : w ≤ i := by exact_mod_cast h.le
      rw [max_eq_left hwi]
    · have hiw : i ≤ w := by exact_mod_cast not_lt.mp h
      rw [max_eq_right hiw]
  have hdivisor : u64wrap ((max i w : Nat) : Int) = max i w := by
    rw [u64wrap_natCast, Nat.mod_eq_of_lt hmax64]
  have hsub : ((max i w : Nat) : Int) - (i : Int) = ((max i w - i : Nat) : Int) := by
    have := le_max_left i w
    omega
  have hmul : (255 : Int) * ((max i w - i : Nat) : Int)
      = ((255 * (max i w - i) : Nat) : Int) := by
    push_cast
    ring
  have hnum : u64wrap (s64wrap (255 * (((max i w : Nat) : Int) - (i : Int))))
      = 255 * (max i w - i) % 2 ^ 64 := by
    rw [u64wrap_s64wrap, hsub, hmul, u64wrap_natCast]
  simp only [core_load]
  rw [u64wrap_sub_of_le _ _ hi (lt_trans hib h64),
      u64wrap_sub_of_le _ _ hw (lt_trans hwb h64), ← hidef, ← hwdef,
      s64ofU64_small _ hib, s64ofU64_small _ hwb, hclamp, hdivisor, hnum]

/-- C2 counterexample: a sampler cycle in which core 0 reads counters
identical to the stored previous ones (diff_idle = diff_wall = 0, so the
clamped diff_wall is 0) does not skip that core's update: it reaches
div64_u64 with a zero divisor, a fault (modelled as none), instead of
completing the cycle with the core skipped. -/
theorem c2_counterexample :
    core_load { prev_wall := 0, prev_idle := 0 } { idle := 0, wall := 0 } = none ∧
    rackmeter_do_timer frontpanel_probe [(0, { idle := 0, wall := 0 })] envOk0
      = none :=
  ⟨rfl, rfl⟩

/-- C2 amended: the division in the load computation is not guarded.
Under monotone in-range counters, the per-core computation reaches the
div64_u64 division by zero (modelled as none) exactly when both counters
failed to advance — the case diff_wall = 0 after clamping — and in that
case the core is not skipped; only when the clamped diff_wall is nonzero
does the cycle proceed normally. -/
theorem c2_divzero_unguarded (rcpu : RackmeterCpu) (s : CoreSample)
    (hi : rcpu.prev_idle ≤ s.idle) (hib : s.idle - rcpu.prev_idle < 2 ^ 63)
    (hw : rcpu.prev_wall ≤ s.wall) (hwb : s.wall - rcpu.prev_wall < 2 ^ 63) :
    core_load rcpu s = none ↔ (s.idle = rcpu.prev_idle ∧ s.wall = rcpu.prev_wall) := by
  rw [core_load_eq rcpu s hi hib hw hwb]
  by_cases hm : max (s.idle - rcpu.prev_idle) (s.wall - rcpu.prev_wall) = 0
  · rw [if_pos hm]
    exact ⟨fun _ => by omega, fun _ => rfl⟩
  · rw [if_neg hm]
    exact ⟨fun h => by simp at h, fun h => absurd (by omega : max (s.idle - rcpu.prev_idle)
      (s.wall - rcpu.prev_wall) = 0) hm⟩

/-- C2 witness: counters that did not advance hit the fault. -/
theorem c2_witness :
    core_load { prev_wall := 5, prev_idle := 5 } { idle := 5, wall := 5 } = none :=
  (c2_divzero_unguarded { prev_wall := 5, prev_idle := 5 } { idle := 5, wall := 5 }
    (by decide) (by decide) (by decide) (by decide)).mpr ⟨rfl, rfl⟩

/-- C7: for monotone in-range counters (diff_idle, diff_wall ≥ 0) with
at least one counter advanced (diff_wall nonzero after clamping), the
computed load exists and lies in [0, 255]; in particular, when
diff_idle > diff_wall (the raced-counter case the clamp handles) the
load is exactly 0. -/
theorem c7_load_bounded (rcpu : RackmeterCpu) (s : CoreSample)
    (hi : rcpu.prev_idle ≤ s.idle) (hib : s.idle - rcpu.prev_idle < 2 ^ 63)
    (hw : rcpu.prev_wall ≤ s.wall) (hwb : s.wall - rcpu.prev_wall < 2 ^ 63)
    (hadv : ¬(s.idle = rcpu.prev_idle ∧ s.wall = rcpu.prev_wall)) :
    (core_load rcpu s).isSome = true ∧
    (core_load rcpu s).getD 0 ≤ 255 ∧
    (s.wall - rcpu.prev_wall < s.idle - rcpu.prev_idle →
      (core_load rcpu s).getD 0 = 0) := by
  rw [core_load_eq rcpu s hi hib hw hwb]
  set i := s.idle - rcpu.prev_idle with hidef
  set w := s.wall - rcpu.prev_wall with hwdef
  have hm : max i w ≠ 0 := by omega
  rw [if_neg hm]
  have hq : 255 * (max i w - i) % 2 ^ 64 / max i w ≤ 255 := by
    have hb : 255 * (max i w - i) % 2 ^ 64 ≤ 255 * max i w :=
      le_trans (Nat.mod_le _ _) (Nat.mul_le_mul_left 255 (Nat.sub_le _ _))
    calc 255 * (max i w - i) % 2 ^ 64 / max i w
        ≤ 255 * max i w / max i w := Nat.div_le_div_right hb
      _ = 255 := Nat.mul_div_cancel 255 (Nat.pos_of_ne_zero hm)
  refine ⟨rfl, ?_, fun hlt => ?_⟩
  · have hq32 : 255 * (max i w - i) % 2 ^ 64 / max i w < 2 ^ 32 :=
      lt_of_le_of_lt hq (by norm_num)
    simp only [Option.getD_some]
    rw [Nat.mod_eq_of_lt hq32]
    exact hq
  · have hmi : max i w = i := max_eq_left hlt.le
    simp [hmi]

/-- C7 witness: load 63 for a core that was idle 3 of 4 wall units, and
load 0 for raced counters (idle advanced past wall). -/
theorem c7_witness :
    ((core_load { prev_wall := 0, prev_idle := 0 } { idle := 3, wall := 4 }).isSome
        = true ∧
      (core_load { prev_wall := 0, prev_idle := 0 } { idle := 3, wall := 4 }).getD 0
        ≤ 255) ∧
    (core_load { prev_wall := 0, prev_idle := 0 } { idle := 5, wall := 4 }).getD 0
      = 0 := by
  have h1 := c7_load_bounded { prev_wall := 0, prev_idle := 0 } { idle := 3, wall := 4 }
    (by decide) (by decide) (by decide) (by decide) (by decide)
  have h2 := c7_load_bounded { prev_wall := 0, prev_idle := 0 } { idle := 5, wall := 4 }
    (by decide) (by decide) (by decide) (by decide) (by decide)
  exact ⟨⟨h1.1, h1.2.1⟩, h2.2.2 (by decide)⟩

lemma process_cpu_cases (dev : UsbFrontpanel) (c : Nat) (s : CoreSample)
    (d : UsbFrontpanel) (ch : Bool) (h : process_cpu dev c s = some (d, ch)) :
    (∀ i : Fin 32, (i : Nat) ≠ c → d.buffer i = dev.buffer i) ∧
    (ch = false → d.buffer = dev.buffer) ∧
    (ch = true → ∃ hc : c < 32, d.buffer ⟨c, hc⟩ ≠ dev.buffer ⟨c, hc⟩) := by
  unfold process_cpu at h
  split at h
  next h16 =>
    split at h
    next hcl => exact absurd h (by simp)
    next load hcl =>
      split at h
      next heq =>
        simp only [Option.some.injEq, Prod.mk.injEq] at h
        obtain ⟨hd', hch⟩ := h
        subst hd'
        subst hch
        exact ⟨fun i hi => rfl, fun _ => rfl, fun hcontr => by simp at hcontr⟩
      next hne =>
        simp only [Option.some.injEq, Prod.mk.injEq] at h
        obtain ⟨hd', hch⟩ := h
        subst hd'
        subst hch
        refine ⟨fun i hi => ?_, fun hcontr => by simp at hcontr, fun _ => ?_⟩
        · exact Function.update_noteq (Fin.ne_of_val_ne hi) _ _
        · refine ⟨by omega, ?_⟩
          show Function.update dev.buffer ⟨c, by omega⟩ (load % 2 ^ 8) ⟨c, by omega⟩
            ≠ dev.buffer ⟨c, by omega⟩
          rw [Function.update_same]
          exact fun hh => hne hh.symm
  next h16 =>
    simp only [Option.some.injEq, Prod.mk.injEq] at h
    obtain ⟨hd', hch⟩ := h
    subst hd'
    subst hch
    exact ⟨fun i hi => rfl, fun _ => rfl, fun hcontr => by simp at hcontr⟩

lemma rackmeter_scan_spec (cores : List (Nat × CoreSample)) (dev : UsbFrontpanel)
    (upd : Bool) (p : UsbFrontpanel × Bool)
    (h : rackmeter_scan dev upd cores = some p) :
    (∀ i : Fin 32, (i : Nat) ∉ cores.map Prod.fst → p.1.buffer i = dev.buffer i) ∧
    ((cores.map Prod.fst).Nodup →
      (p.2 = true ↔ (upd = true ∨ p.1.buffer ≠ dev.buffer))) := by
  induction cores generalizing dev upd with
  | nil =>
    simp only [rackmeter_scan, Option.some.injEq] at h
    subst h
    exact ⟨fun i hi => rfl, fun _ => by simp⟩
  | cons head tail ih =>
    obtain ⟨c, s⟩ := head
    simp only [rackmeter_scan] at h
    cases hpc : process_cpu dev c s with
    | none =>
      rw [hpc] at h
      exact absurd h (by simp)
    | some q =>
      obtain ⟨d1, ch⟩ := q
      rw [hpc] at h
      obtain ⟨hout, hflag, hset⟩ := process_cpu_cases dev c s d1 ch hpc
      obtain ⟨ihout, ihflag⟩ := ih d1 (upd || ch) h
      constructor
      · intro i hi
        rw [List.map_cons, List.mem_cons, not_or] at hi
        exact (ihout i hi.2).trans (hout i hi.1)
      · intro hnd
        rw [List.map_cons, List.nodup_cons] at hnd
        obtain ⟨hcnotin, hndtail⟩ := hnd
        have hiff := ihflag hndtail
        cases ch with
        | false =>
          have hbuf : d1.buffer = dev.buffer := hflag rfl
          rw [hbuf] at hiff
          simpa using hiff
        | true =>
          obtain ⟨hc32, hne⟩ := hset rfl
          have hpres : p.1.buffer ⟨c, hc32⟩ = d1.buffer ⟨c, hc32⟩ :=
            ihout ⟨c, hc32⟩ (by simpa using hcnotin)
          have hq : p.1.buffer ≠ dev.buffer := by
            intro heq
            exact hne (hpres ▸ congrFun heq ⟨c, hc32⟩)
          have hp2 : p.2 = true := hiff.mpr (Or.inl (by simp))
          simp [hp2, hq]

/-- C6: for every faultless sampler cycle over distinct online cores, if
no channel byte changed (the post-loop buffer equals the pre-loop
buffer), no write is submitted; if at least one channel byte changed,
exactly one frontpanel_write of the full PANEL_DATA_SIZE-byte payload is
submitted, and its return value — positive or not — triggers no further
submission within the cycle. -/
theorem c6_write_iff_changed (dev : UsbFrontpanel) (cores : List (Nat × CoreSample))
    (env : WriteEnv) (p : UsbFrontpanel × Bool)
    (hscan : rackmeter_scan dev false cores = some p)
    (hnd : (cores.map Prod.fst).Nodup) :
    (p.1.buffer = dev.buffer →
      rackmeter_do_timer dev cores env = some ⟨p.1, 0, none, none⟩) ∧
    (p.1.buffer ≠ dev.buffer →
      rackmeter_do_timer dev cores env =
        some ⟨(frontpanel_write p.1 env (buffer_bytes p.1) PANEL_DATA_SIZE).dev, 1,
              (frontpanel_write p.1 env (buffer_bytes p.1) PANEL_DATA_SIZE).sent,
              some (frontpanel_write p.1 env (buffer_bytes p.1) PANEL_DATA_SIZE).retval⟩) := by
  have hiff := (rackmeter_scan_spec cores dev false p hscan).2 hnd
  simp only [Bool.false_eq_true, false_or] at hiff
  unfold rackmeter_do_timer
  rw [hscan]
  obtain ⟨d1, u⟩ := p
  cases u with
  | false =>
    refine ⟨fun heq => rfl, fun hne => absurd ?_ hne⟩
    by_contra hcontr
    exact absurd (hiff.mpr hcontr) (by simp)
  | true =>
    have hne : d1.buffer ≠ dev.buffer := hiff.mp rfl
    exact ⟨fun heq => absurd heq hne, fun _ => rfl⟩

/-- C6 witness: a concrete cycle in which core 0's channel byte changes
from 0 to 255 submits exactly one full-size write. -/
theorem c6_witness :
    rackmeter_do_timer frontpanel_probe coresW envOk0 =
      some ⟨(frontpanel_write scanW.1 envOk0 (buffer_bytes scanW.1) PANEL_DATA_SIZE).dev,
            1,
            (frontpanel_write scanW.1 envOk0 (buffer_bytes scanW.1) PANEL_DATA_SIZE).sent,
            some (frontpanel_write scanW.1 envOk0 (buffer_bytes scanW.1)
              PANEL_DATA_SIZE).retval⟩ := by
  have h := c6_write_iff_changed frontpanel_probe coresW envOk0 scanW rfl (by decide)
  refine h.2 ?_
  intro heq
  have hb := congrFun heq (0 : Fin 32)
  exact absurd hb (by decide)

end Frontpanel
